import Mathlib

/-!
Shallow embedding of the data model of the `bcg-300-slides-generator-v2`
repository: the `DataProcessor` (src/shared/data-processor.js), the
slide-structure table and count validation of the orchestrator
(src/orchestrator/main-orchestrator.js), and the dispatch/error behaviour
of the section generators (src/sections/*.js).

Modelling conventions:
- JS numbers are idealised as `ℚ`; the IEEE special values that the claims
  depend on (division by zero producing `Infinity`/`NaN`) are modelled
  explicitly by the `JSNum` type in the one code path where they can arise
  (the unguarded share computation).
- JS `x || d` on numbers is `jsOrNum` (`0` is falsy), on strings `jsOrStr`
  (`""` is falsy), on possibly-absent objects `Option.getD`.
- `Math.random()` is modelled by an explicit stream `s : ℕ → ℚ` of draws in
  `[0,1)`; each loop iteration of `generateShipmentRecords` consumes exactly
  seven draws, in the evaluation order of the source.
- `Intl.NumberFormat` / `toFixed` rounding is modelled as round-half-away-
  from-zero (the `halfExpand` default) on the exact rational value.
- HTML assembly (template engine, chart generator) is out of scope; section
  renderers take the produced slide html from an abstract collaborator.
-/

/-- JS `x || d` for number-valued `x`: `0` is the only falsy finite number. -/
def jsOrNum (x d : ℚ) : ℚ := if x = 0 then d else x

/-- JS `x || d` for string-valued `x`: `""` is falsy. -/
def jsOrStr (x d : String) : String := if x = "" then d else x

/-- A JS number: a finite rational or one of the IEEE special values. -/
inductive JSNum where
  | num : ℚ → JSNum
  | posInf : JSNum
  | negInf : JSNum
  | nan : JSNum
deriving DecidableEq, Repr

/-- JS division, with the IEEE zero-denominator cases made explicit. -/
def jsDiv : JSNum → JSNum → JSNum
  | JSNum.num a, JSNum.num b =>
      if b = 0 then
        if a > 0 then JSNum.posInf else if a < 0 then JSNum.negInf else JSNum.nan
      else JSNum.num (a / b)
  | JSNum.posInf, JSNum.num b =>
      if b = 0 then JSNum.posInf
      else if b > 0 then JSNum.posInf else JSNum.negInf
  | JSNum.negInf, JSNum.num b =>
      if b = 0 then JSNum.negInf
      else if b > 0 then JSNum.negInf else JSNum.posInf
  | JSNum.num _, JSNum.posInf => JSNum.num 0
  | JSNum.num _, JSNum.negInf => JSNum.num 0
  | _, _ => JSNum.nan

/-- JS multiplication on `JSNum`. -/
def jsMul : JSNum → JSNum → JSNum
  | JSNum.num a, JSNum.num b => JSNum.num (a * b)
  | JSNum.num a, JSNum.posInf =>
      if a > 0 then JSNum.posInf else if a < 0 then JSNum.negInf else JSNum.nan
  | JSNum.num a, JSNum.negInf =>
      if a > 0 then JSNum.negInf else if a < 0 then JSNum.posInf else JSNum.nan
  | JSNum.posInf, JSNum.num b =>
      if b > 0 then JSNum.posInf else if b < 0 then JSNum.negInf else JSNum.nan
  | JSNum.negInf, JSNum.num b =>
      if b > 0 then JSNum.negInf else if b < 0 then JSNum.posInf else JSNum.nan
  | JSNum.posInf, JSNum.posInf => JSNum.posInf
  | JSNum.posInf, JSNum.negInf => JSNum.negInf
  | JSNum.negInf, JSNum.posInf => JSNum.negInf
  | JSNum.negInf, JSNum.negInf => JSNum.posInf
  | _, _ => JSNum.nan

/-- JS `v || 0` on a possibly-undefined `JSNum`: `undefined`, `NaN` and `0`
are falsy and yield `0`; infinities are truthy. -/
def jsNumOrZero : Option JSNum → JSNum
  | none => JSNum.num 0
  | some JSNum.nan => JSNum.num 0
  | some (JSNum.num q) => if q = 0 then JSNum.num 0 else JSNum.num q
  | some v => v

/-- Round half away from zero (`Intl.NumberFormat` default `halfExpand`). -/
def roundHalfExpand (q : ℚ) : ℤ :=
  if q < 0 then -(Int.floor (-q + 1/2)) else Int.floor (q + 1/2)

/-- Insert `,` after every third digit; input and output are reversed digit
lists, `k` counts digits emitted since the last separator. -/
def commaRev : List Char → ℕ → List Char
  | [], _ => []
  | c :: cs, k =>
      if k = 3 then ',' :: c :: commaRev cs 1 else c :: commaRev cs (k + 1)

/-- Thousands grouping (en-US) of a natural number. -/
def groupNat (n : ℕ) : String :=
  String.mk (List.reverse (commaRev (List.reverse (toString n).toList) 0))

/-- Embedding of `Intl.NumberFormat` with en-US locale, style currency USD and
maximumFractionDigits 0, applied to the finite value. -/
def formatCurrencyCore (q : ℚ) : String :=
  if roundHalfExpand q < 0 then "-$" ++ groupNat (roundHalfExpand q).natAbs
  else "$" ++ groupNat (roundHalfExpand q).natAbs

/-- Source `DataProcessor.formatCurrency(value)`: formats `value || 0`; `none`
models a missing (`undefined`/`null`) argument. -/
def formatCurrency (v : Option ℚ) : String :=
  formatCurrencyCore (jsOrNum (v.getD 0) 0)

/-- Strip trailing `0` characters (of a fractional part). -/
def stripTrailingZeros (s : List Char) : List Char :=
  List.reverse ((List.reverse s).dropWhile (fun c => c = '0'))

/-- Render `n < 1000` as exactly three digits with leading zeros. -/
def pad3 (n : ℕ) : List Char :=
  let s := (toString n).toList
  List.replicate (3 - s.length) '0' ++ s

/-- Digits of `|rounded value| = a` scaled by 1000: grouped integer part and
up to three fractional digits, trailing zeros dropped. -/
def formatNumBody (a : ℕ) : String :=
  if a % 1000 = 0 then groupNat (a / 1000)
  else groupNat (a / 1000) ++ "." ++ String.mk (stripTrailingZeros (pad3 (a % 1000)))

/-- Embedding of `Intl.NumberFormat(en-US).format` on the finite value:
grouped integer part, up to three fractional digits (default), trailing
zeros dropped. -/
def formatNumberCore (q : ℚ) : String :=
  if roundHalfExpand (q * 1000) < 0 then
    "-" ++ formatNumBody (roundHalfExpand (q * 1000)).natAbs
  else formatNumBody (roundHalfExpand (q * 1000)).natAbs

/-- Source `DataProcessor.formatNumber(value)`: formats `value || 0`. -/
def formatNumber (v : Option ℚ) : String :=
  formatNumberCore (jsOrNum (v.getD 0) 0)

/-- Digits of `|rounded value| = a` scaled by 10, with one fractional digit. -/
def toFixedBody (a : ℕ) : String :=
  toString (a / 10) ++ "." ++ toString (a % 10)

/-- JS `x.toFixed(1)` (no grouping, one fractional digit). -/
def toFixed1 : JSNum → String
  | JSNum.posInf => "Infinity"
  | JSNum.negInf => "-Infinity"
  | JSNum.nan => "NaN"
  | JSNum.num q =>
      if roundHalfExpand (q * 10) < 0 then "-" ++ toFixedBody (roundHalfExpand (q * 10)).natAbs
      else toFixedBody (roundHalfExpand (q * 10)).natAbs

/-- Source `DataProcessor.formatPercentage(value)`: `(value || 0).toFixed(1) + "%"`;
`none` models a missing argument. -/
def formatPercentage (v : Option JSNum) : String :=
  toFixed1 (jsNumOrZero v) ++ "%"

/-- One entry of `importingCountries` / `exportingCountries` in the raw
product data (see data/sample-product-data.js). -/
structure RawCountry where
  country : String
  value : ℚ
  share : ℚ
  shipments : ℚ
deriving DecidableEq, Repr

/-- One entry of `topSuppliers` / `topBuyers` in the raw product data. -/
structure RawEntity where
  name : String
  country : String
  value : ℚ
deriving DecidableEq, Repr

/-- The `topImportCountry` / `topExportCountry` objects of the raw data. -/
structure TopCountry where
  country : String
  count : ℚ
deriving DecidableEq, Repr

/-- One entry of the `priceHistory` series of the raw data. -/
structure PricePoint where
  date : String
  price : ℚ
deriving DecidableEq, Repr

/-- The raw product-data object handed to `new DataProcessor(productData)`,
with every field the processor reads.  Number fields are modelled as always
present (the `|| d` guards in the source are kept at each read site). -/
structure RawInput where
  name : String
  description : String
  hsCode : String
  category : String
  totalRecords : ℚ
  totalValue : ℚ
  avgPrice : ℚ
  priceVolatility : ℚ
  uniqueSuppliers : ℚ
  uniqueBuyers : ℚ
  marketGrowth : ℚ
  supplierConcentration : ℚ
  buyerConcentration : ℚ
  minPrice : ℚ
  maxPrice : ℚ
  dateRange : String
  topImportCountry : Option TopCountry
  topExportCountry : Option TopCountry
  topSuppliers : List RawEntity
  topBuyers : List RawEntity
  importingCountries : List RawCountry
  exportingCountries : List RawCountry
  priceHistory : List PricePoint
deriving DecidableEq, Repr

/-- Output of `DataProcessor.processProductInfo`. -/
structure ProductInfo where
  name : String
  description : String
  hsCode : String
  category : String
  averagePrice : String
deriving DecidableEq, Repr

/-- `DataProcessor.processProductInfo` (data-processor.js, lines 45-53). -/
def processProductInfo (p : RawInput) : ProductInfo :=
  { name := jsOrStr p.name "Unknown Product"
    description := jsOrStr p.description "Product description not available"
    hsCode := jsOrStr p.hsCode "N/A"
    category := jsOrStr p.category "General"
    averagePrice := formatCurrency (some (jsOrNum p.avgPrice 0)) }

/-- Output of `DataProcessor.processMarketData`. -/
structure MarketData where
  totalRecords : String
  totalValue : String
  avgPrice : String
  avgTransactionValue : String
  priceVolatility : String
  uniqueSuppliers : String
  uniqueBuyers : String
  supplierDiversity : String
  buyerDiversity : String
  marketGrowth : String
  topImportCountry : TopCountry
  topExportCountry : TopCountry
  dateRange : String
deriving DecidableEq, Repr

/-- `DataProcessor.processMarketData` (data-processor.js, lines 58-76).
The derived average is `(data.totalValue || 0) / (data.totalRecords || 1)`;
the divisor guard replaces `0` by `1`, so the quotient stays finite. -/
def processMarketData (p : RawInput) : MarketData :=
  { totalRecords := formatNumber (some (jsOrNum p.totalRecords 0))
    totalValue := formatCurrency (some (jsOrNum p.totalValue 0))
    avgPrice := formatCurrency (some (jsOrNum p.avgPrice 0))
    avgTransactionValue :=
      formatCurrency (some (jsOrNum p.totalValue 0 / jsOrNum p.totalRecords 1))
    priceVolatility := formatPercentage (some (JSNum.num (jsOrNum p.priceVolatility 0)))
    uniqueSuppliers := formatNumber (some (jsOrNum p.uniqueSuppliers 0))
    uniqueBuyers := formatNumber (some (jsOrNum p.uniqueBuyers 0))
    supplierDiversity := formatPercentage (some (JSNum.num (jsOrNum p.supplierConcentration 0)))
    buyerDiversity := formatPercentage (some (JSNum.num (jsOrNum p.buyerConcentration 0)))
    marketGrowth := formatPercentage (some (JSNum.num (jsOrNum p.marketGrowth 0)))
    topImportCountry := p.topImportCountry.getD ⟨"Unknown", 0⟩
    topExportCountry := p.topExportCountry.getD ⟨"Unknown", 0⟩
    dateRange := jsOrStr p.dateRange "N/A" }

/-- One rank-annotated country entry of the normalized geography view. -/
structure GeoCountry where
  rank : ℕ
  country : String
  value : String
  share : String
  rawValue : ℚ
  rawShare : ℚ
deriving DecidableEq, Repr

/-- Output of `DataProcessor.processGeographicData`. -/
structure GeographyData where
  importingCountries : List GeoCountry
  exportingCountries : List GeoCountry
deriving DecidableEq, Repr

/-- `DataProcessor.processGeographicData` (data-processor.js, lines 81-103):
each list is mapped with `rank: index + 1`, keeping raw and formatted values. -/
def processGeographicData (p : RawInput) : GeographyData :=
  { importingCountries := p.importingCountries.mapIdx (fun index c =>
      { rank := index + 1
        country := c.country
        value := formatCurrency (some c.value)
        share := formatPercentage (some (JSNum.num c.share))
        rawValue := c.value
        rawShare := c.share })
    exportingCountries := p.exportingCountries.mapIdx (fun index c =>
      { rank := index + 1
        country := c.country
        value := formatCurrency (some c.value)
        share := formatPercentage (some (JSNum.num c.share))
        rawValue := c.value
        rawShare := c.share }) }

/-- The unguarded share computation
`(entity.value / this.productData.totalValue) * 100` of
`processSupplierData` / `processBuyerData` (data-processor.js, lines 117, 137),
with JS division semantics. -/
def shareCalc (value totalValue : ℚ) : JSNum :=
  jsMul (jsDiv (JSNum.num value) (JSNum.num totalValue)) (JSNum.num 100)

/-- One rank-annotated supplier/buyer entry of the normalized view; the raw
share keeps the JS number (it can be `Infinity`/`NaN`, see `shareCalc`). -/
structure EntityEntry where
  rank : ℕ
  name : String
  country : String
  value : String
  share : String
  rawValue : ℚ
  rawShare : JSNum
deriving DecidableEq, Repr

/-- Association list mirroring the insertion-ordered JS object built by
`groupSuppliersByCountry` / `groupBuyersByCountry`. -/
def addToGroup : List (String × List RawEntity) → RawEntity → List (String × List RawEntity)
  | [], e => [(e.country, [e])]
  | (c, es) :: rest, e =>
      if c = e.country then (c, es ++ [e]) :: rest else (c, es) :: addToGroup rest e

/-- `DataProcessor.groupSuppliersByCountry` / `groupBuyersByCountry`
(data-processor.js, lines 185-208). -/
def groupByCountry (l : List RawEntity) : List (String × List RawEntity) :=
  l.foldl addToGroup []

/-- Output of `DataProcessor.processSupplierData` / `processBuyerData`. -/
structure EntityData where
  entries : List EntityEntry
  byCountry : List (String × List RawEntity)
deriving DecidableEq, Repr

/-- `DataProcessor.processSupplierData` (data-processor.js, lines 108-123):
`topSuppliers` mapped with `rank: index + 1` and the unguarded share. -/
def processSupplierData (p : RawInput) : EntityData :=
  { entries := p.topSuppliers.mapIdx (fun index s =>
      { rank := index + 1
        name := s.name
        country := s.country
        value := formatCurrency (some s.value)
        share := formatPercentage (some (shareCalc s.value p.totalValue))
        rawValue := s.value
        rawShare := shareCalc s.value p.totalValue })
    byCountry := groupByCountry p.topSuppliers }

/-- `DataProcessor.processBuyerData` (data-processor.js, lines 128-143). -/
def processBuyerData (p : RawInput) : EntityData :=
  { entries := p.topBuyers.mapIdx (fun index b =>
      { rank := index + 1
        name := b.name
        country := b.country
        value := formatCurrency (some b.value)
        share := formatPercentage (some (shareCalc b.value p.totalValue))
        rawValue := b.value
        rawShare := shareCalc b.value p.totalValue })
    byCountry := groupByCountry p.topBuyers }

/-- Formatted price-history point of the pricing view. -/
structure PriceHistoryEntry where
  date : String
  price : String
  rawPrice : ℚ
deriving DecidableEq, Repr

/-- Per-country average price of the pricing view. -/
structure CountryPrice where
  country : String
  avgPrice : String
  rawPrice : ℚ
deriving DecidableEq, Repr

/-- Output of `DataProcessor.processPricingData`. -/
structure PricingData where
  currentPrice : String
  priceRangeMin : String
  priceRangeMax : String
  volatility : String
  priceHistory : List PriceHistoryEntry
  priceByCountry : List CountryPrice
deriving DecidableEq, Repr

/-- `DataProcessor.calculatePriceByCountry` (data-processor.js, lines 213-220):
`country.value / (country.shipments || 1)` over `importingCountries`. -/
def calculatePriceByCountry (p : RawInput) : List CountryPrice :=
  p.importingCountries.map (fun c =>
    { country := c.country
      avgPrice := formatCurrency (some (c.value / jsOrNum c.shipments 1))
      rawPrice := c.value / jsOrNum c.shipments 1 })

/-- `DataProcessor.processPricingData` (data-processor.js, lines 148-165). -/
def processPricingData (p : RawInput) : PricingData :=
  { currentPrice := formatCurrency (some (jsOrNum p.avgPrice 0))
    priceRangeMin := formatCurrency (some (jsOrNum p.minPrice 0))
    priceRangeMax := formatCurrency (some (jsOrNum p.maxPrice 0))
    volatility := formatPercentage (some (JSNum.num (jsOrNum p.priceVolatility 0)))
    priceHistory := p.priceHistory.map (fun item =>
      { date := item.date
        price := formatCurrency (some item.price)
        rawPrice := item.price })
    priceByCountry := calculatePriceByCountry p }

/-- One synthetic shipment/transaction record (data-processor.js, lines
237-250).  The `date` field keeps the random epoch-milliseconds value; its
ISO string rendering is presentation only and not modelled.  `unitPrice`
and `totalValue` are currency STRINGS in the source, formatted from two
independent random draws. -/
structure ShipmentRecord where
  id : ℕ
  date : ℚ
  supplier : String
  supplierCountry : String
  buyer : String
  buyerCountry : String
  quantity : ℤ
  unitPrice : String
  totalValue : String
  hsCode : String
  portOfLoading : String
  portOfDischarge : String
deriving DecidableEq, Repr

/-- `DataProcessor.generateRandomDate` (lines 259-264): a uniform epoch time
between 2023-01-01 and 2023-12-31 (UTC milliseconds). -/
def generateRandomDate (r : ℚ) : ℚ :=
  1672531200000 + r * (1703980800000 - 1672531200000)

/-- `DataProcessor.generateRandomQuantity` (lines 269-271):
`Math.floor(Math.random() * 10000) + 100`. -/
def generateRandomQuantity (r : ℚ) : ℤ :=
  Int.floor (r * 10000) + 100

/-- `DataProcessor.generateRandomPrice` (lines 276-280): base price plus or
minus up to 15 percent (`variation = basePrice * 0.3`). -/
def generateRandomPrice (p : RawInput) (r : ℚ) : ℚ :=
  let basePrice := jsOrNum p.avgPrice 100
  basePrice + (r - 1/2) * (basePrice * (3/10))

/-- `DataProcessor.generateRandomValue` (lines 285-287): a FRESH random
quantity times a FRESH random price — not the fields of the record. -/
def generateRandomValue (p : RawInput) (r1 r2 : ℚ) : ℚ :=
  (generateRandomQuantity r1 : ℚ) * generateRandomPrice p r2

/-- The static port table of `generateRandomPort` (lines 292-304). -/
def portsFor (country : String) : List String :=
  if country = "USA" then ["New York", "Los Angeles", "Miami", "Houston"]
  else if country = "India" then ["Mumbai", "Chennai", "Kolkata", "Cochin"]
  else if country = "China" then ["Shanghai", "Shenzhen", "Qingdao", "Tianjin"]
  else if country = "Germany" then ["Hamburg", "Bremen", "Bremerhaven"]
  else if country = "UK" then ["London", "Southampton", "Liverpool"]
  else if country = "France" then ["Le Havre", "Marseille", "Dunkirk"]
  else ["Unknown Port"]

/-- `DataProcessor.generateRandomPort` (lines 292-304). -/
def generateRandomPort (country : String) (r : ℚ) : String :=
  let countryPorts := portsFor country
  countryPorts.getD (Int.floor (r * countryPorts.length)).toNat "Unknown Port"

/-- The body of the generation loop of `generateShipmentRecords` (lines
232-251) for index `i`.  The seven `Math.random()` calls of one iteration
are the stream values `s (7*i) .. s (7*i+6)`, in evaluation order: date,
quantity, unit price, the two draws of `generateRandomValue`, and the two
ports.  An empty entity list makes the JS index `i % 0 = NaN` miss, so the
`|| fallback` object is used; `List.getD` models both lookups. -/
def mkShipmentRecord (p : RawInput) (s : ℕ → ℚ) (i : ℕ) : ShipmentRecord :=
  let suppliers := p.topSuppliers
  let buyers := p.topBuyers
  let countries := p.importingCountries
  let supplier := suppliers.getD (i % suppliers.length) ⟨"Unknown Supplier", "Unknown", 0⟩
  let buyer := buyers.getD (i % buyers.length) ⟨"Unknown Buyer", "Unknown", 0⟩
  -- the source also selects `countries[i % countries.length]` into a local
  -- `country` variable, but no field of the record reads it (dead binding);
  -- the country fields of the record come from `supplier` and `buyer` alone
  let _country := countries.getD (i % countries.length) ⟨"Unknown", 0, 0, 0⟩
  let k := 7 * i
  { id := i + 1
    date := generateRandomDate (s k)
    supplier := supplier.name
    supplierCountry := supplier.country
    buyer := buyer.name
    buyerCountry := buyer.country
    quantity := generateRandomQuantity (s (k + 1))
    unitPrice := formatCurrency (some (generateRandomPrice p (s (k + 2))))
    totalValue := formatCurrency (some (generateRandomValue p (s (k + 3)) (s (k + 4))))
    hsCode := jsOrStr p.hsCode "N/A"
    portOfLoading := generateRandomPort supplier.country (s (k + 5))
    portOfDischarge := generateRandomPort buyer.country (s (k + 6)) }

/-- `DataProcessor.generateShipmentRecords` (data-processor.js, lines
225-254): the loop `for (let i = 0; i < 2340; i++)`. -/
def generateShipmentRecords (p : RawInput) (s : ℕ → ℚ) : List ShipmentRecord :=
  (List.range 2340).map (mkShipmentRecord p s)

/-- Output of `DataProcessor.processShipmentData`. -/
structure ShipmentData where
  totalShipments : ℕ
  shipmentRecords : List ShipmentRecord
  shipmentsPerSlide : ℕ
  totalSlides : ℕ
deriving DecidableEq, Repr

/-- `DataProcessor.processShipmentData` (lines 170-180):
`totalSlides = Math.ceil(shipments.length / 10)`. -/
def processShipmentData (p : RawInput) (s : ℕ → ℚ) : ShipmentData :=
  let shipments := generateShipmentRecords p s
  { totalShipments := shipments.length
    shipmentRecords := shipments
    shipmentsPerSlide := 10
    totalSlides := (shipments.length + 10 - 1) / 10 }

/-- The whole normalized view built once by the `DataProcessor` constructor. -/
structure ProcessedData where
  product : ProductInfo
  market : MarketData
  geography : GeographyData
  suppliers : EntityData
  buyers : EntityData
  pricing : PricingData
  shipments : ShipmentData
deriving DecidableEq, Repr

/-- `DataProcessor.processAllData` (data-processor.js, lines 17-40), run by
the constructor; `s` is the `Math.random` stream consumed by the shipment
generator.  Note: it performs NO input validation and never throws. -/
def processAllData (p : RawInput) (s : ℕ → ℚ) : ProcessedData :=
  { product := processProductInfo p
    market := processMarketData p
    geography := processGeographicData p
    suppliers := processSupplierData p
    buyers := processBuyerData p
    pricing := processPricingData p
    shipments := processShipmentData p s }

/-- One entry of the slide-structure table (main-orchestrator.js, lines
54-147).  The optional fields model the JS properties that only some
entries carry. -/
structure SlideDef where
  id : ℕ
  type : String
  title : String
  countryRank : Option ℕ := none
  supplierRank : Option ℕ := none
  importerRank : Option ℕ := none
  recordStart : Option ℕ := none
  recordEnd : Option ℕ := none
deriving DecidableEq, Repr

/-- One section of the structure table: a declared id range and its slides. -/
structure SlideSection where
  range : ℕ × ℕ
  slides : List SlideDef
deriving DecidableEq, Repr

/-- The six named sections of the structure table. -/
structure SlideStructure where
  foundation : SlideSection
  importingCountries : SlideSection
  exportingCountries : SlideSection
  supplierBuyer : SlideSection
  pricing : SlideSection
  shipmentRecords : SlideSection
deriving DecidableEq, Repr

/-- `MainOrchestrator.defineSlideStructure` (main-orchestrator.js, lines
54-147), the exact static table: 8 foundation + 15 importing + 16
exporting + 23 supplier/buyer + 1 pricing + 234 shipment-batch entries. -/
def defineSlideStructure : SlideStructure :=
  { foundation :=
      { range := (1, 8)
        slides :=
          [ { id := 1, type := "title_agenda", title := "Title & Agenda generation" }
          , { id := 2, type := "table_of_contents", title := "Table of Contents" }
          , { id := 3, type := "executive_summary", title := "Executive Summary (Key Findings)" }
          , { id := 4, type := "product_overview", title := "Product Overview" }
          , { id := 5, type := "market_share_analysis", title := "Market share analysis- value, volume, import, export, countries" }
          , { id := 6, type := "geography_intelligence", title := "Geography Import Export Intelligence- top 10 value and volume along with export and import" }
          , { id := 7, type := "supplier_buyer_relationships", title := "Supplier-Buyer Relationships with countries- Sankey Diagram" }
          , { id := 8, type := "top_importing_countries", title := "Top 10 Importing countries- name, market share and charts" } ] }
    importingCountries :=
      { range := (9, 23)
        slides :=
          ((List.range 5).map (fun i =>
            { id := 9 + i
              type := "importing_country_suppliers"
              title := "Top " ++ toString (i + 1) ++ " Importing country- Who are the top 10 suppliers countries"
              countryRank := some (i + 1) }))
          ++ ((List.range 10).map (fun i =>
            { id := 14 + i
              type := "importing_country_companies"
              title := "Top " ++ toString (i + 1) ++ " Importing country- Who are the top 10 suppliers companies"
              countryRank := some (i + 1) })) }
    exportingCountries :=
      { range := (24, 39)
        slides :=
          [ { id := 24, type := "top_exporting_countries", title := "Top 10 Exporting countries- name, market share and charts" } ]
          ++ ((List.range 5).map (fun i =>
            { id := 25 + i
              type := "exporting_country_destinations"
              title := "Top " ++ toString (i + 1) ++ " Exporting country- Who are the top 10 destination countries"
              countryRank := some (i + 1) }))
          ++ ((List.range 10).map (fun i =>
            { id := 30 + i
              type := "exporting_country_companies"
              title := "Top " ++ toString (i + 1) ++ " Exporting country- Who are the top 10 Importer companies"
              countryRank := some (i + 1) })) }
    supplierBuyer :=
      { range := (40, 62)
        slides :=
          [ { id := 40, type := "supplier_buyer_intelligence", title := "SUPPLIER & BUYER INTELLIGENCE - Sankey Diagram" }
          , { id := 41, type := "top_suppliers_analysis", title := "Top 15 Suppliers Analysis- market share, suppliers countries and importers name - Sankey Diagram" } ]
          ++ ((List.range 10).map (fun i =>
            { id := 42 + i
              type := "supplier_detailed_analysis"
              title := "Top " ++ toString (i + 1) ++ " Supplier detailed analysis- price, number of destination countries, market share and charts"
              supplierRank := some (i + 1) }))
          ++ [ { id := 52, type := "top_importers_analysis", title := "Top 15 Importers Analysis- Market share, Suppliers countries and Importers name- Sankey Diagram" } ]
          ++ ((List.range 10).map (fun i =>
            { id := 53 + i
              type := "importer_detailed_analysis"
              title := "Top " ++ toString (i + 1) ++ " Importer detailed analysis- price, market share, number of suppliers countries and charts"
              importerRank := some (i + 1) })) }
    pricing :=
      { range := (63, 63)
        slides :=
          [ { id := 63, type := "pricing_analysis", title := "Pricing analysis (per unit)" } ] }
    shipmentRecords :=
      { range := (67, 300)
        slides :=
          (List.range 234).map (fun i =>
            { id := 67 + i
              type := "shipment_records"
              title := "Shipment Records " ++ toString (i + 1)
              recordStart := some (i * 10 + 1)
              recordEnd := some ((i + 1) * 10) }) } }

/-- One generated slide, as returned by the section generators. -/
structure Slide where
  id : ℕ
  type : String
  title : String
  html : String
deriving DecidableEq, Repr

/-- The per-section generation loop shared by every section module
(e.g. importing-countries-section.js, lines 20-45): render each definition
in order; the first failing slide aborts the whole section. -/
def generateSectionSlides (render : SlideDef → Except String Slide) :
    List SlideDef → Except String (List Slide)
  | [] => Except.ok []
  | d :: ds => do
      let slide ← render d
      let rest ← generateSectionSlides render ds
      Except.ok (slide :: rest)

/-- JS array indexing: negative indices (and misses) give `undefined`. -/
def jsIndex {α : Type} (l : List α) (i : ℤ) : Option α :=
  if i < 0 then none else l.get? i.toNat

/-- The error message thrown by the importing-countries renderers
(importing-countries-section.js, lines 55 and 111). -/
def rankNotFoundMsg (rank : ℕ) : String :=
  "Importing country at rank " ++ toString rank ++ " not found"

/-- `ImportingCountriesSection.generateImportingCountrySuppliersSlide`
(importing-countries-section.js, lines 50-101): looks up
`importingCountries[countryRank - 1]` and throws when it is missing.
`mkHtml` stands for the out-of-scope template/chart HTML assembly. -/
def generateImportingCountrySuppliersSlide (data : ProcessedData)
    (mkHtml : SlideDef → GeoCountry → String) (d : SlideDef) : Except String Slide :=
  let countryRank := d.countryRank.getD 0
  match jsIndex data.geography.importingCountries ((countryRank : ℤ) - 1) with
  | none => Except.error (rankNotFoundMsg countryRank)
  | some importingCountry =>
      Except.ok
        { id := d.id
          type := d.type
          title := importingCountry.country ++ ": Top Supplier Countries"
          html := mkHtml d importingCountry }

/-- `ImportingCountriesSection.generateImportingCountryCompaniesSlide`
(importing-countries-section.js, lines 106-139): same lookup and the same
error message string. -/
def generateImportingCountryCompaniesSlide (data : ProcessedData)
    (mkHtml : SlideDef → GeoCountry → String) (d : SlideDef) : Except String Slide :=
  let countryRank := d.countryRank.getD 0
  match jsIndex data.geography.importingCountries ((countryRank : ℤ) - 1) with
  | none => Except.error (rankNotFoundMsg countryRank)
  | some importingCountry =>
      Except.ok
        { id := d.id
          type := d.type
          title := importingCountry.country ++ ": Top Supplier Companies"
          html := mkHtml d importingCountry }

/-- The `switch (slideDef.type)` dispatch of
`ImportingCountriesSection.generateSlides` (lines 28-38); an unknown type
throws. -/
def renderImportingSlide (data : ProcessedData)
    (mkHtml1 mkHtml2 : SlideDef → GeoCountry → String) (d : SlideDef) :
    Except String Slide :=
  if d.type = "importing_country_suppliers" then
    generateImportingCountrySuppliersSlide data mkHtml1 d
  else if d.type = "importing_country_companies" then
    generateImportingCountryCompaniesSlide data mkHtml2 d
  else Except.error ("Unknown slide type: " ++ d.type)

/-- `ImportingCountriesSection.generateSlides` (lines 20-45). -/
def importingGenerateSlides (data : ProcessedData)
    (mkHtml1 mkHtml2 : SlideDef → GeoCountry → String) (defs : List SlideDef) :
    Except String (List Slide) :=
  generateSectionSlides (renderImportingSlide data mkHtml1 mkHtml2) defs

/-- JS `Array.prototype.slice(s, e)` for `0 ≤ s ≤ e` (start inclusive, end
exclusive, clamped to the array length). -/
def jsSlice {α : Type} (l : List α) (s e : ℕ) : List α :=
  (l.drop s).take (e - s)

/-- The record slice taken by
`ShipmentRecordsSection.generateShipmentRecordsSlide`
(`allRecords.slice(slideDef.recordStart - 1, slideDef.recordEnd)`). -/
def shipmentSlideRecords {α : Type} (allRecords : List α) (d : SlideDef) : List α :=
  jsSlice allRecords (d.recordStart.getD 0 - 1) (d.recordEnd.getD 0)

/-- The section lists of the structure table in declared order, as summed by
`MainOrchestrator.generateAllSlides`. -/
def sectionDefs (st : SlideStructure) : List (List SlideDef) :=
  [ st.foundation.slides, st.importingCountries.slides,
    st.exportingCountries.slides, st.supplierBuyer.slides,
    st.pricing.slides, st.shipmentRecords.slides ]

/-- Total number of slide definitions across all sections. -/
def totalDefs (st : SlideStructure) : ℕ :=
  ((sectionDefs st).map List.length).sum

/-- The exact error thrown at main-orchestrator.js line 203. -/
def structureDeviationMsg (n : ℕ) : String :=
  "❌ STRUCTURE DEVIATION DETECTED: Expected 297 slides, got " ++ toString n

/-- `MainOrchestrator.generateAllSlides` (main-orchestrator.js, lines
152-208): run the six sections in order, concatenate their slides, then
throw a structure-deviation error unless exactly 297 slides were produced.
Each section generator is abstracted as a renderer; any renderer failure
propagates and aborts the run with no slide list. -/
def generateAllSlides
    (rFound rImp rExp rSB rPrice rShip : SlideDef → Except String Slide)
    (st : SlideStructure) : Except String (List Slide) := do
  let foundationSlides ← generateSectionSlides rFound st.foundation.slides
  let importingSlides ← generateSectionSlides rImp st.importingCountries.slides
  let exportingSlides ← generateSectionSlides rExp st.exportingCountries.slides
  let supplierBuyerSlides ← generateSectionSlides rSB st.supplierBuyer.slides
  let pricingSlides ← generateSectionSlides rPrice st.pricing.slides
  let shipmentSlides ← generateSectionSlides rShip st.shipmentRecords.slides
  let slides := foundationSlides ++ importingSlides ++ exportingSlides ++
    supplierBuyerSlides ++ pricingSlides ++ shipmentSlides
  if slides.length ≠ 297 then Except.error (structureDeviationMsg slides.length)
  else Except.ok slides

/-! Helper lemmas about the embedding. -/

theorem except_bind_ok {ε α β : Type} (a : α) (f : α → Except ε β) :
    (Except.ok a : Except ε α) >>= f = f a := rfl

theorem except_bind_error {ε α β : Type} (e : ε) (f : α → Except ε β) :
    (Except.error e : Except ε α) >>= f = Except.error e := rfl

theorem mapIdx_map_rank {α β : Type} (l : List α) (f : ℕ → α → β) (g : β → ℕ)
    (h : ∀ i a, g (f i a) = i + 1) :
    (l.mapIdx f).map g = List.range' 1 l.length := by
  rw [List.mapIdx_eq_enum_map, List.map_map]
  have h1 : g ∘ Function.uncurry f = (fun n => n + 1) ∘ Prod.fst := by
    funext p
    cases p with
    | mk i a => simp [Function.uncurry, h]
  rw [h1, ← List.map_map, List.enum_map_fst, List.range'_eq_map_range]
  apply List.map_congr_left
  intro a _
  omega

theorem mapIdx_map_proj {α β γ : Type} (l : List α) (f : ℕ → α → β) (g : β → γ)
    (h : α → γ) (hh : ∀ i a, g (f i a) = h a) :
    (l.mapIdx f).map g = l.map h := by
  rw [List.mapIdx_eq_enum_map, List.map_map]
  have h1 : g ∘ Function.uncurry f = h ∘ Prod.snd := by
    funext p
    cases p with
    | mk i a => simp [Function.uncurry, hh]
  rw [h1, ← List.map_map, List.enum_map_snd]

theorem join_take_chunks {α : Type} (B : ℕ) :
    ∀ (c : ℕ) (l : List α), l.length ≤ c * B →
      ((List.range c).map (fun i => (l.drop (i * B)).take B)).flatten = l := by
  intro c
  induction c with
  | zero =>
      intro l hl
      have hnil : l = [] := List.eq_nil_of_length_eq_zero (by omega)
      simp [hnil]
  | succ c ih =>
      intro l hl
      have hl2 : l.length - B ≤ c * B := by
        rw [Nat.succ_mul] at hl
        generalize c * B = x at hl ⊢
        omega
      have h2 : (l.drop B).length ≤ c * B := by simpa using hl2
      calc ((List.range (c + 1)).map (fun i => (l.drop (i * B)).take B)).flatten
          = l.take B ++
              ((List.range c).map (fun i => ((l.drop B).drop (i * B)).take B)).flatten := by
            rw [List.range_succ_eq_map, List.map_cons, List.map_map, List.flatten_cons]
            congr 1
            · simp
            · congr 1
              apply List.map_congr_left
              intro i _
              simp only [Function.comp]
              congr 1
              rw [List.drop_drop]
              congr 1
              rw [Nat.succ_mul, Nat.add_comm]
        _ = l.take B ++ l.drop B := by rw [ih (l.drop B) h2]
        _ = l := List.take_append_drop B l

theorem le_ceil_mul (T B : ℕ) (hB : 0 < B) : T ≤ (T + B - 1) / B * B := by
  have h := Nat.div_add_mod (T + B - 1) B
  have h2 : (T + B - 1) % B < B := Nat.mod_lt _ hB
  rw [Nat.mul_comm]
  generalize hx : B * ((T + B - 1) / B) = x at h ⊢
  generalize hy : (T + B - 1) % B = y at h h2
  omega

theorem take_min_clamp {α : Type} (l : List α) (T B i : ℕ) (hT : l.length = T) :
    (l.drop (i * B)).take (min ((i + 1) * B) T - i * B) = (l.drop (i * B)).take B := by
  rcases le_or_lt ((i + 1) * B) T with h | h
  · rw [min_eq_left h]
    congr 1
    have h1 : (i + 1) * B = i * B + B := by ring
    omega
  · rw [min_eq_right (le_of_lt h)]
    have h1 : (i + 1) * B = i * B + B := by ring
    rw [h1] at h
    have hlen : (l.drop (i * B)).length = T - i * B := by simp [hT]
    have t1 : (l.drop (i * B)).take (T - i * B) = l.drop (i * B) := by
      apply List.take_of_length_le
      omega
    have t2 : (l.drop (i * B)).take B = l.drop (i * B) := by
      apply List.take_of_length_le
      generalize i * B = x at h hlen ⊢
      omega
    rw [t1, t2]

theorem generateSectionSlides_ok {render : SlideDef → Except String Slide}
    (hok : ∀ d, ∃ sl, render d = Except.ok sl) :
    ∀ defs : List SlideDef, ∃ out,
      generateSectionSlides render defs = Except.ok out ∧ out.length = defs.length := by
  intro defs
  induction defs with
  | nil => exact ⟨[], rfl, rfl⟩
  | cons d ds ih =>
      obtain ⟨sl, hsl⟩ := hok d
      obtain ⟨out, hout, hlen⟩ := ih
      refine ⟨sl :: out, ?_, by simp [hlen]⟩
      simp [generateSectionSlides, hsl, hout, except_bind_ok]

theorem generateSectionSlides_length {render : SlideDef → Except String Slide} :
    ∀ {defs : List SlideDef} {out : List Slide},
      generateSectionSlides render defs = Except.ok out → out.length = defs.length := by
  intro defs
  induction defs with
  | nil =>
      intro out h
      simp only [generateSectionSlides] at h
      cases h
      rfl
  | cons d ds ih =>
      intro out h
      simp only [generateSectionSlides] at h
      cases hr : render d with
      | error e => rw [hr, except_bind_error] at h; cases h
      | ok sl =>
          rw [hr, except_bind_ok] at h
          cases hrec : generateSectionSlides render ds with
          | error e => rw [hrec, except_bind_error] at h; cases h
          | ok rest =>
              rw [hrec, except_bind_ok] at h
              cases h
              simp [ih hrec]

theorem generateSectionSlides_ids {render : SlideDef → Except String Slide}
    (hid : ∀ d sl, render d = Except.ok sl → sl.id = d.id) :
    ∀ {defs : List SlideDef} {out : List Slide},
      generateSectionSlides render defs = Except.ok out →
      out.map Slide.id = defs.map SlideDef.id := by
  intro defs
  induction defs with
  | nil =>
      intro out h
      simp only [generateSectionSlides] at h
      cases h
      rfl
  | cons d ds ih =>
      intro out h
      simp only [generateSectionSlides] at h
      cases hr : render d with
      | error e => rw [hr, except_bind_error] at h; cases h
      | ok sl =>
          rw [hr, except_bind_ok] at h
          cases hrec : generateSectionSlides render ds with
          | error e => rw [hrec, except_bind_error] at h; cases h
          | ok rest =>
              rw [hrec, except_bind_ok] at h
              cases h
              simp [hid d sl hr, ih hrec]

theorem generateSectionSlides_error {render : SlideDef → Except String Slide} :
    ∀ {defs : List SlideDef} {d : SlideDef} {e : String},
      d ∈ defs → render d = Except.error e →
      (∀ d2, d2 ∈ defs → d2 ≠ d → ∃ sl, render d2 = Except.ok sl) →
      ∃ msg, generateSectionSlides render defs = Except.error msg := by
  intro defs
  induction defs with
  | nil => intro d e h; cases h
  | cons d0 ds ih =>
      intro d e hmem herr hrest
      simp only [generateSectionSlides]
      cases hr : render d0 with
      | error e0 => exact ⟨e0, by rw [except_bind_error]⟩
      | ok sl =>
          rw [except_bind_ok]
          have hd : d ∈ ds := by
            rcases List.mem_cons.mp hmem with h0 | h0
            · exfalso
              rw [← h0] at hr
              rw [hr] at herr
              cases herr
            · exact h0
          obtain ⟨msg, hmsg⟩ := ih hd herr (fun d2 h2 hne => hrest d2 (List.mem_cons_of_mem _ h2) hne)
          exact ⟨msg, by rw [hmsg, except_bind_error]⟩

theorem jsOrNum_zero_default (q : ℚ) : jsOrNum q 0 = q := by
  by_cases h : q = 0 <;> simp [jsOrNum, h]

theorem roundHalfExpand_eq_ofNat (q : ℚ) (n : ℕ) (hq : ¬ q < 0)
    (h1 : (n : ℚ) ≤ q + 1/2) (h2 : q + 1/2 < n + 1) :
    roundHalfExpand q = n := by
  unfold roundHalfExpand
  rw [if_neg hq, Int.floor_eq_iff]
  constructor
  · push_cast
    exact h1
  · push_cast
    exact h2

theorem formatCurrency_eval (q : ℚ) (n : ℕ) (hq : ¬ q < 0)
    (h1 : (n : ℚ) ≤ q + 1/2) (h2 : q + 1/2 < n + 1) :
    formatCurrency (some q) = "$" ++ groupNat n := by
  unfold formatCurrency formatCurrencyCore
  simp only [Option.getD_some]
  rw [jsOrNum_zero_default, roundHalfExpand_eq_ofNat q n hq h1 h2,
    if_neg (by omega), Int.natAbs_ofNat]

theorem formatNumber_eval (q : ℚ) (n : ℕ) (hq : ¬ q * 1000 < 0)
    (h1 : (n : ℚ) ≤ q * 1000 + 1/2) (h2 : q * 1000 + 1/2 < n + 1) :
    formatNumber (some q) = formatNumBody n := by
  unfold formatNumber formatNumberCore
  simp only [Option.getD_some]
  rw [jsOrNum_zero_default, roundHalfExpand_eq_ofNat (q * 1000) n hq h1 h2,
    if_neg (by omega), Int.natAbs_ofNat]

theorem formatPercentage_evalNum (q : ℚ) (n : ℕ) (hq0 : ¬ q = 0)
    (hq : ¬ q * 10 < 0) (h1 : (n : ℚ) ≤ q * 10 + 1/2) (h2 : q * 10 + 1/2 < n + 1) :
    formatPercentage (some (JSNum.num q)) = toFixedBody n ++ "%" := by
  have hred : jsNumOrZero (some (JSNum.num q)) = JSNum.num q := by
    simp [jsNumOrZero, hq0]
  unfold formatPercentage
  rw [hred]
  simp only [toFixed1]
  rw [roundHalfExpand_eq_ofNat (q * 10) n hq h1 h2, if_neg (by omega), Int.natAbs_ofNat]

theorem formatCurrency_zero : formatCurrency (some 0) = "$0" := by
  rw [formatCurrency_eval 0 0 (by norm_num) (by norm_num) (by norm_num)]
  decide

theorem formatNumber_zero : formatNumber (some 0) = "0" := by
  rw [formatNumber_eval 0 0 (by norm_num) (by norm_num) (by norm_num)]
  decide

theorem formatPercentage_zero : formatPercentage (some (JSNum.num 0)) = "0.0%" := by
  have hred : jsNumOrZero (some (JSNum.num 0)) = JSNum.num 0 := by
    simp [jsNumOrZero]
  unfold formatPercentage
  rw [hred]
  simp only [toFixed1]
  rw [roundHalfExpand_eq_ofNat (0 * 10) 0 (by norm_num) (by norm_num) (by norm_num),
    if_neg (by omega), Int.natAbs_ofNat]
  decide

/-! Concrete inputs used by counterexamples and witnesses. -/

/-- A raw input with market `totalValue = 0`, one positive-value supplier and
one zero-value buyer: it exercises the unguarded share division. -/
def rawZeroTotal : RawInput :=
  { name := "P", description := "D", hsCode := "HS", category := "C"
    totalRecords := 10, totalValue := 0, avgPrice := 100
    priceVolatility := 0, uniqueSuppliers := 1, uniqueBuyers := 1
    marketGrowth := 0, supplierConcentration := 0, buyerConcentration := 0
    minPrice := 0, maxPrice := 0, dateRange := "2023"
    topImportCountry := none, topExportCountry := none
    topSuppliers := [⟨"S1", "USA", 1⟩]
    topBuyers := [⟨"B1", "UK", 0⟩]
    importingCountries := [], exportingCountries := [], priceHistory := [] }

/-- A raw input with `totalRecords = 0` and empty ranked lists. -/
def rawNoRecords : RawInput :=
  { name := "P", description := "D", hsCode := "HS", category := "C"
    totalRecords := 0, totalValue := 500, avgPrice := 100
    priceVolatility := 0, uniqueSuppliers := 0, uniqueBuyers := 0
    marketGrowth := 0, supplierConcentration := 0, buyerConcentration := 0
    minPrice := 0, maxPrice := 0, dateRange := "2023"
    topImportCountry := none, topExportCountry := none
    topSuppliers := [], topBuyers := []
    importingCountries := [], exportingCountries := [], priceHistory := [] }

/-- A raw input with the market totals of data/sample-product-data.js
(`totalValue = 1245800000`, `totalRecords = 28456`). -/
def rawPaclitaxelMarket : RawInput :=
  { name := "Paclitaxel", description := "D", hsCode := "2932999090"
    category := "Pharmaceutical Active Ingredient"
    totalRecords := 28456, totalValue := 1245800000, avgPrice := 4375052 / 100
    priceVolatility := 1873 / 10, uniqueSuppliers := 87, uniqueBuyers := 142
    marketGrowth := 125 / 10, supplierConcentration := 3 / 10, buyerConcentration := 4 / 10
    minPrice := 3258075 / 100, maxPrice := 6125030 / 100, dateRange := "Jan 2023 - Dec 2023"
    topImportCountry := some ⟨"United States", 5872⟩
    topExportCountry := some ⟨"India", 6543⟩
    topSuppliers := [⟨"Bristol-Myers Squibb", "USA", 245000000⟩]
    topBuyers := [⟨"Memorial Sloan Kettering", "USA", 187000000⟩]
    importingCountries := [⟨"United States", 325000000, 261 / 10, 5872⟩]
    exportingCountries := [⟨"India", 412000000, 331 / 10, 6543⟩]
    priceHistory := [] }

/-- A raw input whose importing-countries list has only three entries, so a
table entry asking for rank 4 misses. -/
def rawThreeCountries : RawInput :=
  { name := "P", description := "D", hsCode := "HS", category := "C"
    totalRecords := 100, totalValue := 1000, avgPrice := 10
    priceVolatility := 0, uniqueSuppliers := 1, uniqueBuyers := 1
    marketGrowth := 0, supplierConcentration := 0, buyerConcentration := 0
    minPrice := 0, maxPrice := 0, dateRange := "2023"
    topImportCountry := none, topExportCountry := none
    topSuppliers := [⟨"S1", "USA", 400⟩]
    topBuyers := [⟨"B1", "UK", 300⟩]
    importingCountries := [⟨"United States", 500, 50, 10⟩, ⟨"Germany", 300, 30, 6⟩, ⟨"France", 200, 20, 4⟩]
    exportingCountries := [⟨"India", 600, 60, 12⟩]
    priceHistory := [] }

/-- The processed view of `rawThreeCountries` (any random stream; the
geography section does not consume randomness). -/
def dataThree : ProcessedData := processAllData rawThreeCountries (fun _ => 1/2)

/-! Claim theorems. -/

/-- C3: for every raw input, each ranked list of the normalized view
(importing countries, exporting countries, top suppliers, top buyers) is
annotated with exactly the contiguous ranks `1..length` (no gaps, no
duplicates), and the entry order of the input list is preserved. -/
theorem normalized_ranks_contiguous (p : RawInput) :
    ((processGeographicData p).importingCountries.map GeoCountry.rank
        = List.range' 1 p.importingCountries.length
      ∧ (processGeographicData p).importingCountries.map GeoCountry.country
        = p.importingCountries.map RawCountry.country)
    ∧ ((processGeographicData p).exportingCountries.map GeoCountry.rank
        = List.range' 1 p.exportingCountries.length
      ∧ (processGeographicData p).exportingCountries.map GeoCountry.country
        = p.exportingCountries.map RawCountry.country)
    ∧ ((processSupplierData p).entries.map EntityEntry.rank
        = List.range' 1 p.topSuppliers.length
      ∧ (processSupplierData p).entries.map EntityEntry.name
        = p.topSuppliers.map RawEntity.name)
    ∧ ((processBuyerData p).entries.map EntityEntry.rank
        = List.range' 1 p.topBuyers.length
      ∧ (processBuyerData p).entries.map EntityEntry.name
        = p.topBuyers.map RawEntity.name) := by
  refine ⟨⟨?_, ?_⟩, ⟨?_, ?_⟩, ⟨?_, ?_⟩, ⟨?_, ?_⟩⟩
  · exact mapIdx_map_rank _ _ _ (fun i a => rfl)
  · exact mapIdx_map_proj _ _ _ _ (fun i a => rfl)
  · exact mapIdx_map_rank _ _ _ (fun i a => rfl)
  · exact mapIdx_map_proj _ _ _ _ (fun i a => rfl)
  · exact mapIdx_map_rank _ _ _ (fun i a => rfl)
  · exact mapIdx_map_proj _ _ _ _ (fun i a => rfl)
  · exact mapIdx_map_rank _ _ _ (fun i a => rfl)
  · exact mapIdx_map_proj _ _ _ _ (fun i a => rfl)

/-- The unguarded share computation at total 0, by sign of the value. -/
theorem shareCalc_zero_total (v : ℚ) :
    shareCalc v 0
      = (if 0 < v then JSNum.posInf else if v < 0 then JSNum.negInf else JSNum.nan) := by
  rcases lt_trichotomy v 0 with hv | hv | hv
  · simp [shareCalc, jsDiv, jsMul, hv, not_lt_of_gt hv]
  · simp [shareCalc, jsDiv, jsMul, hv]
  · simp [shareCalc, jsDiv, jsMul, hv, not_lt_of_gt hv]

/-- C4 (counterexample): the claim says the share computation against a
total of 0 returns 0 and never produces NaN or Infinity; but on a raw input
with `totalValue = 0` the supplier with value 1 gets raw share `Infinity`
and the buyer with value 0 gets raw share `NaN`. -/
theorem share_zero_total_counterexample :
    (processSupplierData rawZeroTotal).entries.map EntityEntry.rawShare = [JSNum.posInf]
    ∧ (processBuyerData rawZeroTotal).entries.map EntityEntry.rawShare = [JSNum.nan]
    ∧ JSNum.posInf ≠ JSNum.num 0 ∧ JSNum.nan ≠ JSNum.num 0 := by
  refine ⟨by decide, by decide, by decide, by decide⟩

/-- C4 (amended): the share computation
`(value / totalValue) * 100` is unguarded; with `totalValue = 0` every
supplier/buyer raw share is `Infinity` for positive value, `-Infinity` for
negative value and `NaN` for zero value — never the number 0. -/
theorem share_zero_total_amended (p : RawInput) (h : p.totalValue = 0) :
    (processSupplierData p).entries.map EntityEntry.rawShare
      = p.topSuppliers.map (fun s =>
          if 0 < s.value then JSNum.posInf
          else if s.value < 0 then JSNum.negInf else JSNum.nan)
    ∧ (processBuyerData p).entries.map EntityEntry.rawShare
      = p.topBuyers.map (fun b =>
          if 0 < b.value then JSNum.posInf
          else if b.value < 0 then JSNum.negInf else JSNum.nan) := by
  constructor
  · calc (processSupplierData p).entries.map EntityEntry.rawShare
        = p.topSuppliers.map (fun s => shareCalc s.value p.totalValue) :=
          mapIdx_map_proj _ _ _ _ (fun i a => rfl)
      _ = _ := by
          apply List.map_congr_left
          intro s _
          rw [h, shareCalc_zero_total]
  · calc (processBuyerData p).entries.map EntityEntry.rawShare
        = p.topBuyers.map (fun b => shareCalc b.value p.totalValue) :=
          mapIdx_map_proj _ _ _ _ (fun i a => rfl)
      _ = _ := by
          apply List.map_congr_left
          intro b _
          rw [h, shareCalc_zero_total]

/-- Witness for the amended C4 theorem at `rawZeroTotal`. -/
theorem share_zero_total_amended_witness :
    (processSupplierData rawZeroTotal).entries.map EntityEntry.rawShare
      = rawZeroTotal.topSuppliers.map (fun s =>
          if 0 < s.value then JSNum.posInf
          else if s.value < 0 then JSNum.negInf else JSNum.nan)
    ∧ (processBuyerData rawZeroTotal).entries.map EntityEntry.rawShare
      = rawZeroTotal.topBuyers.map (fun b =>
          if 0 < b.value then JSNum.posInf
          else if b.value < 0 then JSNum.negInf else JSNum.nan) :=
  share_zero_total_amended rawZeroTotal rfl

/-- C5 (counterexample): the claim says normalization fails with an
`InvalidInputError` for `totalRecords <= 0` or empty ranked lists; but on
`rawNoRecords` (zero records, all lists empty) the processor silently
substitutes defaults and returns a normalized view: the displayed record
count is "0" and the average transaction value divides by the substituted
1, giving "$500". -/
theorem normalize_no_validation_counterexample :
    (processMarketData rawNoRecords).totalRecords = "0"
    ∧ (processMarketData rawNoRecords).avgTransactionValue = "$500"
    ∧ (processAllData rawNoRecords (fun _ => 0)).market = processMarketData rawNoRecords
    ∧ (processGeographicData rawNoRecords).importingCountries = []
    ∧ (processSupplierData rawNoRecords).entries = [] := by
  refine ⟨?_, ?_, rfl, by decide, by decide⟩
  · have h0 : rawNoRecords.totalRecords = 0 := rfl
    show formatNumber (some (jsOrNum rawNoRecords.totalRecords 0)) = "0"
    rw [h0, jsOrNum_zero_default]
    exact formatNumber_zero
  · show formatCurrency
        (some (jsOrNum rawNoRecords.totalValue 0 / jsOrNum rawNoRecords.totalRecords 1)) = "$500"
    have h1 : jsOrNum rawNoRecords.totalValue 0 / jsOrNum rawNoRecords.totalRecords 1 = 500 := by
      norm_num [rawNoRecords, jsOrNum]
    rw [h1, formatCurrency_eval 500 500 (by norm_num) (by norm_num) (by norm_num)]
    decide

/-- C5 (amended): the `DataProcessor` performs no input validation and never
signals an error: for every raw input with `totalRecords = 0` it still
returns a full normalized view, displaying the record count 0 and
substituting 1 as the average-transaction divisor (`totalRecords || 1`). -/
theorem normalize_no_validation_amended (p : RawInput) (s : ℕ → ℚ) (h : p.totalRecords = 0) :
    (processAllData p s).market = processMarketData p
    ∧ (processMarketData p).totalRecords = formatNumber (some 0)
    ∧ (processMarketData p).avgTransactionValue
        = formatCurrency (some (jsOrNum p.totalValue 0)) := by
  refine ⟨rfl, ?_, ?_⟩
  · simp [processMarketData, h, jsOrNum]
  · simp [processMarketData, h, jsOrNum]

/-- Witness for the amended C5 theorem at `rawNoRecords`. -/
theorem normalize_no_validation_amended_witness :
    (processAllData rawNoRecords (fun _ => 0)).market = processMarketData rawNoRecords
    ∧ (processMarketData rawNoRecords).totalRecords = formatNumber (some 0)
    ∧ (processMarketData rawNoRecords).avgTransactionValue
        = formatCurrency (some (jsOrNum rawNoRecords.totalValue 0)) :=
  normalize_no_validation_amended rawNoRecords (fun _ => 0) rfl

/-- C8: the three formatting helpers are pure total functions of their
(possibly missing) argument; a missing (`undefined`/`null`) argument is
treated as 0, so `formatCurrency(undefined) = formatCurrency(0)`, and on
finite numbers the `|| 0` guard is the identity. -/
theorem format_functions_total :
    formatCurrency none = formatCurrency (some 0)
    ∧ formatNumber none = formatNumber (some 0)
    ∧ formatPercentage none = formatPercentage (some (JSNum.num 0))
    ∧ (∀ q : ℚ, formatCurrency (some q) = formatCurrencyCore q)
    ∧ (∀ q : ℚ, formatNumber (some q) = formatNumberCore q)
    ∧ formatCurrency (some 0) = "$0"
    ∧ formatNumber (some 0) = "0"
    ∧ formatPercentage (some (JSNum.num 0)) = "0.0%" := by
  refine ⟨rfl, rfl, rfl, ?_, ?_, formatCurrency_zero, formatNumber_zero, formatPercentage_zero⟩
  · intro q
    by_cases h : q = 0 <;> simp [formatCurrency, jsOrNum, h]
  · intro q
    by_cases h : q = 0 <;> simp [formatNumber, jsOrNum, h]

/-- C9 (counterexample): the claim says the derived average transaction
value formats to "$43,776"; for the sample totals
(1245800000 / 28456 = 43779.87...) the code produces "$43,780". -/
theorem avg_transaction_value_counterexample :
    (processMarketData rawPaclitaxelMarket).avgTransactionValue = "$43,780"
    ∧ "$43,780" ≠ "$43,776" := by
  constructor
  · show formatCurrency (some (jsOrNum rawPaclitaxelMarket.totalValue 0 /
        jsOrNum rawPaclitaxelMarket.totalRecords 1)) = "$43,780"
    have h1 : jsOrNum rawPaclitaxelMarket.totalValue 0 /
        jsOrNum rawPaclitaxelMarket.totalRecords 1 = 1245800000 / 28456 := by
      norm_num [rawPaclitaxelMarket, jsOrNum]
    rw [h1, formatCurrency_eval (1245800000 / 28456) 43780
      (by norm_num) (by norm_num) (by norm_num)]
    decide
  · decide

/-- C9 (amended): for every raw input with `totalValue = 1245800000` and
`totalRecords = 28456`, the derived `avgTransactionValue`
(`totalValue / (totalRecords || 1)`, exact quotient 43779.87...) formats to
the whole-dollar string "$43,780" (nearest dollar, not "$43,776"). -/
theorem avg_transaction_value_amended (p : RawInput)
    (h1 : p.totalValue = 1245800000) (h2 : p.totalRecords = 28456) :
    (processMarketData p).avgTransactionValue = "$43,780" := by
  show formatCurrency (some (jsOrNum p.totalValue 0 / jsOrNum p.totalRecords 1)) = "$43,780"
  have hv : jsOrNum p.totalValue 0 / jsOrNum p.totalRecords 1 = 1245800000 / 28456 := by
    rw [h1, h2]
    norm_num [jsOrNum]
  rw [hv, formatCurrency_eval (1245800000 / 28456) 43780
    (by norm_num) (by norm_num) (by norm_num)]
  decide

/-- Witness for the amended C9 theorem at `rawPaclitaxelMarket`. -/
theorem avg_transaction_value_amended_witness :
    (processMarketData rawPaclitaxelMarket).avgTransactionValue = "$43,780" :=
  avg_transaction_value_amended rawPaclitaxelMarket rfl rfl

theorem range_map_succ_eq (n : ℕ) :
    (List.range n).map (fun i => i + 1) = List.range' 1 n := by
  rw [List.range'_eq_map_range]
  apply List.map_congr_left
  intro a _
  omega

theorem getD_eq_getD_of_lt {α : Type} (l : List α) (i : ℕ) (d1 d2 : α)
    (h : i < l.length) : l.getD i d1 = l.getD i d2 := by
  rw [List.getD_eq_get?, List.getD_eq_get?, List.get?_eq_get h]
  rfl

/-- C7: `generateShipmentRecords` produces exactly 2340 records, with ids
`1..2340` in order; whenever a ranked list is non-empty, the corresponding
record fields of record index `i` (supplier name/country from
`topSuppliers`, buyer name/country from `topBuyers`) are taken from the
list entry at position `i mod length` — round-robin — independently of the
fallback object. -/
theorem shipment_records_round_robin (p : RawInput) (s : ℕ → ℚ) :
    (generateShipmentRecords p s).length = 2340
    ∧ (generateShipmentRecords p s).map ShipmentRecord.id = List.range' 1 2340
    ∧ (∀ d : RawEntity, p.topSuppliers ≠ [] →
        (generateShipmentRecords p s).map ShipmentRecord.supplier
          = (List.range 2340).map
              (fun i => (p.topSuppliers.getD (i % p.topSuppliers.length) d).name)
        ∧ (generateShipmentRecords p s).map ShipmentRecord.supplierCountry
          = (List.range 2340).map
              (fun i => (p.topSuppliers.getD (i % p.topSuppliers.length) d).country))
    ∧ (∀ d : RawEntity, p.topBuyers ≠ [] →
        (generateShipmentRecords p s).map ShipmentRecord.buyer
          = (List.range 2340).map
              (fun i => (p.topBuyers.getD (i % p.topBuyers.length) d).name)
        ∧ (generateShipmentRecords p s).map ShipmentRecord.buyerCountry
          = (List.range 2340).map
              (fun i => (p.topBuyers.getD (i % p.topBuyers.length) d).country)) := by
  refine ⟨by simp [generateShipmentRecords], ?_, ?_, ?_⟩
  · rw [generateShipmentRecords, List.map_map]
    exact range_map_succ_eq 2340
  · intro d hne
    have hpos : 0 < p.topSuppliers.length := List.length_pos.mpr hne
    constructor
    · rw [generateShipmentRecords, List.map_map]
      apply List.map_congr_left
      intro i _
      exact congrArg RawEntity.name
        (getD_eq_getD_of_lt _ _ _ _ (Nat.mod_lt _ hpos))
    · rw [generateShipmentRecords, List.map_map]
      apply List.map_congr_left
      intro i _
      exact congrArg RawEntity.country
        (getD_eq_getD_of_lt _ _ _ _ (Nat.mod_lt _ hpos))
  · intro d hne
    have hpos : 0 < p.topBuyers.length := List.length_pos.mpr hne
    constructor
    · rw [generateShipmentRecords, List.map_map]
      apply List.map_congr_left
      intro i _
      exact congrArg RawEntity.name
        (getD_eq_getD_of_lt _ _ _ _ (Nat.mod_lt _ hpos))
    · rw [generateShipmentRecords, List.map_map]
      apply List.map_congr_left
      intro i _
      exact congrArg RawEntity.country
        (getD_eq_getD_of_lt _ _ _ _ (Nat.mod_lt _ hpos))

/-- Witness for the C7 theorem at a concrete input with one supplier. -/
theorem shipment_records_round_robin_witness :
    rawThreeCountries.topSuppliers ≠ []
    ∧ (generateShipmentRecords rawThreeCountries (fun _ => 1/2)).map ShipmentRecord.supplier
        = (List.range 2340).map
            (fun i => (rawThreeCountries.topSuppliers.getD
                (i % rawThreeCountries.topSuppliers.length) ⟨"Z", "Z", 0⟩).name) := by
  have hne : rawThreeCountries.topSuppliers ≠ [] := by decide
  exact ⟨hne,
    ((shipment_records_round_robin rawThreeCountries (fun _ => 1/2)).2.2.1 ⟨"Z", "Z", 0⟩ hne).1⟩

/-- The random stream exhibiting the total-value inconsistency: the record
quantity draw (index 1) is 0, the fresh quantity draw used for the total
(index 3) is 0.99, all other draws are 0.5. -/
def strmC6 : ℕ → ℚ := fun k => if k = 1 then 0 else if k = 3 then 99/100 else 1/2

set_option maxRecDepth 100000 in
/-- C6 (code bug, flagged by the spec itself): the first generated record
under `strmC6` has `quantity = 100` and `unitPrice = "$100"`, but its
`totalValue` field is `"$1,000,000"`, formatted from two fresh random draws
(`generateRandomValue`), not from `quantity * unitPrice = 10000`
(which would format to `"$10,000"`). -/
theorem totalValue_not_product_of_fields :
    (generateShipmentRecords rawZeroTotal strmC6).head?
      = some (mkShipmentRecord rawZeroTotal strmC6 0)
    ∧ (mkShipmentRecord rawZeroTotal strmC6 0).quantity = 100
    ∧ (mkShipmentRecord rawZeroTotal strmC6 0).unitPrice = "$100"
    ∧ (mkShipmentRecord rawZeroTotal strmC6 0).totalValue = "$1,000,000"
    ∧ formatCurrency (some ((100 : ℚ) * 100)) = "$10,000"
    ∧ ("$1,000,000" : String) ≠ "$10,000" := by
  refine ⟨rfl, ?_, ?_, ?_, ?_, by decide⟩
  · show generateRandomQuantity (strmC6 1) = 100
    have h1 : strmC6 1 = 0 := rfl
    rw [h1]
    unfold generateRandomQuantity
    norm_num
  · show formatCurrency (some (generateRandomPrice rawZeroTotal (strmC6 2))) = "$100"
    have h2 : strmC6 2 = 1/2 := rfl
    have hp : generateRandomPrice rawZeroTotal (1/2) = 100 := by
      unfold generateRandomPrice
      norm_num [jsOrNum, rawZeroTotal]
    rw [h2, hp, formatCurrency_eval 100 100 (by norm_num) (by norm_num) (by norm_num)]
    decide
  · show formatCurrency
        (some (generateRandomValue rawZeroTotal (strmC6 3) (strmC6 4))) = "$1,000,000"
    have h3 : strmC6 3 = 99/100 := rfl
    have h4 : strmC6 4 = 1/2 := rfl
    have hq : generateRandomQuantity (99/100) = 10000 := by
      unfold generateRandomQuantity
      have hfl : Int.floor ((99 : ℚ)/100 * 10000) = 9900 := by
        rw [Int.floor_eq_iff]
        constructor
        · push_cast
          norm_num
        · push_cast
          norm_num
      rw [hfl]
      decide
    have hp : generateRandomPrice rawZeroTotal (1/2) = 100 := by
      unfold generateRandomPrice
      norm_num [jsOrNum, rawZeroTotal]
    have hv : generateRandomValue rawZeroTotal (99/100) (1/2) = 1000000 := by
      unfold generateRandomValue
      rw [hq, hp]
      push_cast
      norm_num
    rw [h3, h4, hv, formatCurrency_eval 1000000 1000000
      (by norm_num) (by norm_num) (by norm_num)]
    decide
  · have hm : (100 : ℚ) * 100 = 10000 := by norm_num
    rw [hm, formatCurrency_eval 10000 10000 (by norm_num) (by norm_num) (by norm_num)]
    decide

/-- Modelled from the spec: the shipment-records section of
`buildPlan(transactionCount, batchSize)` (spec section 4.2) with entry count
`ceil(T/B)`, `recordStart = i*B + 1` and `recordEnd = min((i+1)*B, T)`.
The source hard-codes `T = 2340`, `B = 10` in its structure table; this
general form exists only in the spec words and is compared against the
hard-coded table by the round-trip theorem. -/
def buildPlanShipmentEntries (T B : ℕ) : List SlideDef :=
  (List.range ((T + B - 1) / B)).map (fun i =>
    { id := 67 + i
      type := "shipment_records"
      title := "Shipment Records " ++ toString (i + 1)
      recordStart := some (i * B + 1)
      recordEnd := some (min ((i + 1) * B) T) })

/-- C2: round-trip partition. First half (source table): slicing any
2340-record list by the 234 hard-coded `recordStart`/`recordEnd` ranges
(`records.slice(recordStart - 1, recordEnd)`) and concatenating in id order
reproduces the record list exactly, with nothing duplicated or omitted.
Second half (spec `buildPlan`): the same holds for every `T` and every
`B > 0`, including a final short batch when `B` does not divide `T`. -/
theorem shipment_partition_roundtrip :
    (∀ (α : Type) (records : List α), records.length = 2340 →
      (defineSlideStructure.shipmentRecords.slides.map
          (shipmentSlideRecords records)).flatten = records)
    ∧ (∀ (α : Type) (T B : ℕ) (records : List α), 0 < B → records.length = T →
      ((buildPlanShipmentEntries T B).map
          (shipmentSlideRecords records)).flatten = records) := by
  constructor
  · intro α records hlen
    have hs : defineSlideStructure.shipmentRecords.slides
        = (List.range 234).map (fun i =>
            ({ id := 67 + i
               type := "shipment_records"
               title := "Shipment Records " ++ toString (i + 1)
               recordStart := some (i * 10 + 1)
               recordEnd := some ((i + 1) * 10) } : SlideDef)) := rfl
    have h1 : defineSlideStructure.shipmentRecords.slides.map (shipmentSlideRecords records)
        = (List.range 234).map (fun i => (records.drop (i * 10)).take 10) := by
      rw [hs, List.map_map]
      apply List.map_congr_left
      intro i _
      show shipmentSlideRecords records
          { id := 67 + i
            type := "shipment_records"
            title := "Shipment Records " ++ toString (i + 1)
            recordStart := some (i * 10 + 1)
            recordEnd := some ((i + 1) * 10) }
        = (records.drop (i * 10)).take 10
      unfold shipmentSlideRecords jsSlice
      simp only [Option.getD_some]
      rw [show i * 10 + 1 - 1 = i * 10 from by omega,
          show (i + 1) * 10 - i * 10 = 10 from by omega]
    rw [h1]
    exact join_take_chunks 10 234 records (by rw [hlen])
  · intro α T B records hB hlen
    have h1 : (buildPlanShipmentEntries T B).map (shipmentSlideRecords records)
        = (List.range ((T + B - 1) / B)).map (fun i => (records.drop (i * B)).take B) := by
      unfold buildPlanShipmentEntries
      rw [List.map_map]
      apply List.map_congr_left
      intro i _
      show shipmentSlideRecords records
          { id := 67 + i
            type := "shipment_records"
            title := "Shipment Records " ++ toString (i + 1)
            recordStart := some (i * B + 1)
            recordEnd := some (min ((i + 1) * B) T) }
        = (records.drop (i * B)).take B
      unfold shipmentSlideRecords jsSlice
      simp only [Option.getD_some]
      rw [show i * B + 1 - 1 = i * B from by omega]
      exact take_min_clamp records T B i hlen
    rw [h1]
    exact join_take_chunks B ((T + B - 1) / B) records
      (by rw [hlen]; exact le_ceil_mul T B hB)

/-- Witness for the C2 theorem: the hard-coded table on a concrete
2340-element list, and the spec form at `T = 25`, `B = 10` (short final
batch). -/
theorem shipment_partition_roundtrip_witness :
    (defineSlideStructure.shipmentRecords.slides.map
        (shipmentSlideRecords (List.range 2340))).flatten = List.range 2340
    ∧ ((buildPlanShipmentEntries 25 10).map
        (shipmentSlideRecords (List.range 25))).flatten = List.range 25 :=
  ⟨shipment_partition_roundtrip.1 ℕ (List.range 2340) (by simp),
   shipment_partition_roundtrip.2 ℕ 25 10 (List.range 25) (by norm_num) (by simp)⟩

/-- A section renderer that succeeds on every slide definition. -/
def allOk (render : SlideDef → Except String Slide) : Prop :=
  ∀ d, ∃ sl, render d = Except.ok sl

set_option maxRecDepth 100000 in
/-- C1: the slide plan of the source sums to exactly
8 + 15 + 16 + 23 + 1 + 234 = 297 entries; with every per-slide render
succeeding, `generateAllSlides` succeeds on the source structure and
returns exactly 297 slides, while on any structure whose total entry count
differs from 297 it throws the structure-deviation error instead of
returning slides. -/
theorem generateAllSlides_validates_297 :
    ((sectionDefs defineSlideStructure).map List.length = [8, 15, 16, 23, 1, 234]
      ∧ totalDefs defineSlideStructure = 297)
    ∧ (∀ r1 r2 r3 r4 r5 r6, allOk r1 → allOk r2 → allOk r3 → allOk r4 →
        allOk r5 → allOk r6 →
        ∃ slides, generateAllSlides r1 r2 r3 r4 r5 r6 defineSlideStructure
            = Except.ok slides ∧ slides.length = 297)
    ∧ (∀ r1 r2 r3 r4 r5 r6 st, allOk r1 → allOk r2 → allOk r3 → allOk r4 →
        allOk r5 → allOk r6 → totalDefs st ≠ 297 →
        ∃ msg, generateAllSlides r1 r2 r3 r4 r5 r6 st = Except.error msg) := by
  refine ⟨⟨by decide, by decide⟩, ?_, ?_⟩
  · intro r1 r2 r3 r4 r5 r6 h1 h2 h3 h4 h5 h6
    obtain ⟨a, ha, hla⟩ := generateSectionSlides_ok h1 defineSlideStructure.foundation.slides
    obtain ⟨b, hb, hlb⟩ := generateSectionSlides_ok h2 defineSlideStructure.importingCountries.slides
    obtain ⟨c, hc, hlc⟩ := generateSectionSlides_ok h3 defineSlideStructure.exportingCountries.slides
    obtain ⟨d, hd, hld⟩ := generateSectionSlides_ok h4 defineSlideStructure.supplierBuyer.slides
    obtain ⟨e, he, hle⟩ := generateSectionSlides_ok h5 defineSlideStructure.pricing.slides
    obtain ⟨f, hf, hlf⟩ := generateSectionSlides_ok h6 defineSlideStructure.shipmentRecords.slides
    have hlen : (a ++ b ++ c ++ d ++ e ++ f).length = 297 := by
      simp only [List.length_append, hla, hlb, hlc, hld, hle, hlf]
      decide
    refine ⟨a ++ b ++ c ++ d ++ e ++ f, ?_, hlen⟩
    unfold generateAllSlides
    rw [ha, except_bind_ok, hb, except_bind_ok, hc, except_bind_ok, hd, except_bind_ok,
        he, except_bind_ok, hf, except_bind_ok]
    show (if (a ++ b ++ c ++ d ++ e ++ f).length ≠ 297
        then Except.error (structureDeviationMsg (a ++ b ++ c ++ d ++ e ++ f).length)
        else Except.ok (a ++ b ++ c ++ d ++ e ++ f))
      = Except.ok (a ++ b ++ c ++ d ++ e ++ f)
    rw [hlen]
    norm_num
  · intro r1 r2 r3 r4 r5 r6 st h1 h2 h3 h4 h5 h6 hne
    obtain ⟨a, ha, hla⟩ := generateSectionSlides_ok h1 st.foundation.slides
    obtain ⟨b, hb, hlb⟩ := generateSectionSlides_ok h2 st.importingCountries.slides
    obtain ⟨c, hc, hlc⟩ := generateSectionSlides_ok h3 st.exportingCountries.slides
    obtain ⟨d, hd, hld⟩ := generateSectionSlides_ok h4 st.supplierBuyer.slides
    obtain ⟨e, he, hle⟩ := generateSectionSlides_ok h5 st.pricing.slides
    obtain ⟨f, hf, hlf⟩ := generateSectionSlides_ok h6 st.shipmentRecords.slides
    have hlen : (a ++ b ++ c ++ d ++ e ++ f).length = totalDefs st := by
      simp only [List.length_append, hla, hlb, hlc, hld, hle, hlf, totalDefs, sectionDefs,
        List.map_cons, List.map_nil, List.sum_cons, List.sum_nil]
      omega
    refine ⟨structureDeviationMsg (totalDefs st), ?_⟩
    unfold generateAllSlides
    rw [ha, except_bind_ok, hb, except_bind_ok, hc, except_bind_ok, hd, except_bind_ok,
        he, except_bind_ok, hf, except_bind_ok]
    show (if (a ++ b ++ c ++ d ++ e ++ f).length ≠ 297
        then Except.error (structureDeviationMsg (a ++ b ++ c ++ d ++ e ++ f).length)
        else Except.ok (a ++ b ++ c ++ d ++ e ++ f))
      = Except.error (structureDeviationMsg (totalDefs st))
    rw [hlen, if_pos hne]

/-- A renderer used to instantiate the count-validation theorem. -/
def okRender : SlideDef → Except String Slide :=
  fun d => Except.ok { id := d.id, type := d.type, title := d.title, html := "" }

theorem okRender_allOk : allOk okRender := fun _ => ⟨_, rfl⟩

/-- A structure table with no slides at all (total 0, not 297). -/
def emptyStructure : SlideStructure :=
  { foundation := ⟨(1, 8), []⟩
    importingCountries := ⟨(9, 23), []⟩
    exportingCountries := ⟨(24, 39), []⟩
    supplierBuyer := ⟨(40, 62), []⟩
    pricing := ⟨(63, 63), []⟩
    shipmentRecords := ⟨(67, 300), []⟩ }

/-- Witness for the C1 theorem: an all-succeeding renderer on the source
table yields 297 slides; on an empty table it yields the deviation error. -/
theorem generateAllSlides_validates_297_witness :
    (∃ slides, generateAllSlides okRender okRender okRender okRender okRender okRender
        defineSlideStructure = Except.ok slides ∧ slides.length = 297)
    ∧ (∃ msg, generateAllSlides okRender okRender okRender okRender okRender okRender
        emptyStructure = Except.error msg) :=
  ⟨generateAllSlides_validates_297.2.1 _ _ _ _ _ _ okRender_allOk okRender_allOk
      okRender_allOk okRender_allOk okRender_allOk okRender_allOk,
   generateAllSlides_validates_297.2.2 _ _ _ _ _ _ _ okRender_allOk okRender_allOk
      okRender_allOk okRender_allOk okRender_allOk okRender_allOk (by decide)⟩

/-- C10 (counterexample): with a normalized view holding only three
importing countries, the structure-table entry with slide id 12
(`countryRank = 4`) makes the importing-countries renderer throw
"Importing country at rank 4 not found": the message names the missing rank
but does not identify the slide ID (the digits "12" nowhere occur in it),
so the claim that the error identifies both the slide ID and the rank fails. -/
theorem rank_error_counterexample :
    renderImportingSlide dataThree (fun _ _ => "") (fun _ _ => "")
        { id := 12
          type := "importing_country_suppliers"
          title := "Top 4 Importing country- Who are the top 10 suppliers countries"
          countryRank := some 4 }
      = Except.error "Importing country at rank 4 not found"
    ∧ ¬ List.IsInfix (String.toList "12")
        (String.toList "Importing country at rank 4 not found") := by
  exact ⟨rfl, by decide⟩

theorem renderImportingSlide_id (data : ProcessedData)
    (m1 m2 : SlideDef → GeoCountry → String) (d : SlideDef) (sl : Slide)
    (h : renderImportingSlide data m1 m2 d = Except.ok sl) : sl.id = d.id := by
  unfold renderImportingSlide at h
  by_cases h1 : d.type = "importing_country_suppliers"
  · rw [if_pos h1] at h
    simp only [generateImportingCountrySuppliersSlide] at h
    cases hx : jsIndex data.geography.importingCountries ((d.countryRank.getD 0 : ℤ) - 1) with
    | none => rw [hx] at h; cases h
    | some c => rw [hx] at h; cases h; rfl
  · rw [if_neg h1] at h
    by_cases h2 : d.type = "importing_country_companies"
    · rw [if_pos h2] at h
      simp only [generateImportingCountryCompaniesSlide] at h
      cases hx : jsIndex data.geography.importingCountries ((d.countryRank.getD 0 : ℤ) - 1) with
      | none => rw [hx] at h; cases h
      | some c => rw [hx] at h; cases h; rfl
    · rw [if_neg h2] at h
      cases h

/-- C10 (amended): on a slide definition whose `countryRank` lies outside
the importing-countries list, the section renderer fails with the
descriptive error naming the missing rank — but not the slide ID; an
unknown slide type fails with the unknown-type error; a successful section
run never skips or substitutes a placeholder (exactly one slide per
definition, ids matching); and a failing importing section aborts
`generateAllSlides` with that error and no slide list. -/
theorem rank_error_amended :
    (∀ (data : ProcessedData) (m1 m2 : SlideDef → GeoCountry → String) (d : SlideDef),
      d.type = "importing_country_suppliers" →
      jsIndex data.geography.importingCountries ((d.countryRank.getD 0 : ℤ) - 1) = none →
      renderImportingSlide data m1 m2 d
        = Except.error (rankNotFoundMsg (d.countryRank.getD 0)))
    ∧ (∀ (data : ProcessedData) (m1 m2 : SlideDef → GeoCountry → String) (d : SlideDef),
      d.type ≠ "importing_country_suppliers" → d.type ≠ "importing_country_companies" →
      renderImportingSlide data m1 m2 d = Except.error ("Unknown slide type: " ++ d.type))
    ∧ (∀ (data : ProcessedData) (m1 m2 : SlideDef → GeoCountry → String)
        (defs : List SlideDef) (out : List Slide),
      importingGenerateSlides data m1 m2 defs = Except.ok out →
      out.length = defs.length ∧ out.map Slide.id = defs.map SlideDef.id)
    ∧ (∀ r1 r2 r3 r4 r5 r6 st msg, allOk r1 →
      generateSectionSlides r2 st.importingCountries.slides = Except.error msg →
      generateAllSlides r1 r2 r3 r4 r5 r6 st = Except.error msg) := by
  refine ⟨?_, ?_, ?_, ?_⟩
  · intro data m1 m2 d htype hnone
    unfold renderImportingSlide
    rw [if_pos htype]
    simp only [generateImportingCountrySuppliersSlide]
    rw [hnone]
  · intro data m1 m2 d h1 h2
    unfold renderImportingSlide
    rw [if_neg h1, if_neg h2]
  · intro data m1 m2 defs out h
    exact ⟨generateSectionSlides_length h,
      generateSectionSlides_ids (renderImportingSlide_id data m1 m2) h⟩
  · intro r1 r2 r3 r4 r5 r6 st msg h1 herr
    obtain ⟨a, ha, _⟩ := generateSectionSlides_ok h1 st.foundation.slides
    unfold generateAllSlides
    rw [ha, except_bind_ok, herr, except_bind_error]

/-- A section renderer that fails on every slide definition. -/
def failRender : SlideDef → Except String Slide := fun _ => Except.error "boom"

/-- Witness for the amended C10 theorem: a concrete missing rank yields the
rank-naming error, and a failing importing section makes the whole
generation run return an error. -/
theorem rank_error_amended_witness :
    renderImportingSlide dataThree (fun _ _ => "") (fun _ _ => "")
        { id := 10
          type := "importing_country_suppliers"
          title := "Top 2 Importing country- Who are the top 10 suppliers countries"
          countryRank := some 9 }
      = Except.error (rankNotFoundMsg 9)
    ∧ generateAllSlides okRender failRender okRender okRender okRender okRender
        defineSlideStructure = Except.error "boom" :=
  ⟨rank_error_amended.1 dataThree (fun _ _ => "") (fun _ _ => "") _ rfl (by rfl),
   rank_error_amended.2.2.2 okRender failRender okRender okRender okRender okRender
      defineSlideStructure "boom" okRender_allOk (by rfl)⟩
